import Mathlib

/-!
Verification development for the record-community association services of
invenio-rdm-records (MESH-Research fork): the `add`, `remove`, `bulk_add`
and `set_default` service operations, the pluggable component pipeline that
runs named hooks over a mutable payload before each operation's core logic,
and the per-item partial-failure result aggregation.

The repository excerpt contains the test suite
(`tests/services/test_service_record_communities.py`) and the component
registry (`invenio_rdm_records/services/components/__init__.py`); the
service class itself lives outside the excerpt, so its operations are
modelled from the specification (sections 4.1-4.3, 7, 8), with behaviour
the tests pin down (the default-community-on-first-add rule, the exact
error-entry shapes, the result shapes) taken from those tests.

Mutation of the in-flight payload by pipeline components is modelled by
explicit state passing: each hook is a function from the payload (and the
operation context) to the updated payload, and the invoker threads the
payload through the registered components in order.
-/

namespace RecordCommunities

/-- Record identifiers (persistent identifiers, abstracted to numbers). -/
abbrev RecordId := Nat

/-- Community identifiers, abstracted to numbers. -/
abbrev CommunityId := Nat

/-- Modelled from the spec: a Community Reference is "an identifier plus
optional message, representing one (record, community) association to
create, remove, or set as default" (section 3).  Only the identifier is
relevant to the visible behaviour. -/
structure CommunityRef where
  id : CommunityId
deriving DecidableEq

/-- The community-related state a record's parent carries:
`parent.communities.ids` and `parent.communities.default` as observed by
the tests. -/
structure RecordState where
  communities : List CommunityId
  default : Option CommunityId
deriving DecidableEq

/-- The persisted state the service operates on: a resolver from record id
to record state (persistent-identifier resolution) and the set of existing
communities. -/
structure Store where
  records : RecordId → Option RecordState
  communities : List CommunityId

/-- Persistent-identifier resolution: `record_cls.pid.resolve(record_id)`. -/
def Store.resolve (s : Store) (rid : RecordId) : Option RecordState :=
  s.records rid

/-- Commit a new state for one record. -/
def Store.updateRecord (s : Store) (rid : RecordId) (st : RecordState) : Store :=
  { s with records := fun r => if r = rid then some st else s.records r }

/-- An identity: either the trusted/system identity, or a regular identity
that may or may not hold the required service permission. -/
structure Identity where
  isSystem : Bool
  permitted : Bool
deriving DecidableEq

/-- The trusted/system identity (`system_identity` in the tests). -/
def systemIdentity : Identity := { isSystem := true, permitted := false }

/-- Modelled from the spec: the permission check `can(identity, action)`
with the trusted/system identity bypass (sections 4.2, 6, glossary). -/
def canPerform (i : Identity) : Bool :=
  i.isSystem || i.permitted

/-- Modelled from the spec: a bulk result entry for a failure,
`\x7brecord_id, community_id, message\x7d` (section 3 and the tests). -/
structure BulkErrorEntry where
  record_id : RecordId
  community_id : CommunityId
  message : String
deriving DecidableEq

/-- A successful `add` outcome: a community-inclusion request carrying the
community id (`requests` entries in `test_add_component_called`). -/
structure InclusionRequest where
  community_id : CommunityId
deriving DecidableEq

/-- A successful `remove` outcome, carrying the removed community id under
the key `community` (`test_remove_component_called`). -/
structure RemovalResult where
  community : CommunityId
deriving DecidableEq

/-- Systemic errors: those that abort the whole call and surface as raised
errors (spec section 7): permission denial, missing record, and an invalid
`set_default` target. -/
inductive ServiceError where
  | permissionDenied
  | recordNotFound (rid : RecordId)
  | communityNotIncluded (cid : CommunityId)
deriving DecidableEq

/-- Modelled from the spec: a pluggable service component, "each optionally
implementing hooks (`add`, `remove`, `set_default`, `bulk_add`)" (section
2).  A hook is a transformer of the operation's mutable payload; a missing
hook (`none`) is a component that does not implement it.  The `set_default`
hook receives the record and the target community id and "may substitute a
different target" (section 4.3); the `bulk_add` hook receives the mutable
record-id list and the mutable set-default flag. -/
structure ServiceComponent where
  add : Option (Identity → RecordId → List CommunityRef → List CommunityRef) := none
  remove : Option (Identity → RecordId → List CommunityRef → List CommunityRef) := none
  set_default : Option (Identity → RecordState × CommunityId → RecordState × CommunityId) := none
  bulk_add : Option (Identity → CommunityId → List RecordId × Bool → List RecordId × Bool) := none

/-- Modelled from the spec: the component pipeline invoker (section 4.1).
For a named hook (selected by `hookOf`), invoke that hook on every
registered component, in registration order, threading the mutable payload;
components without the hook are skipped silently (capability-based
dispatch). -/
def runComponentsHook {α : Type} (hookOf : ServiceComponent → Option (α → α))
    (comps : List ServiceComponent) (payload : α) : α :=
  comps.foldl (fun p c =>
    match hookOf c with
    | some h => h p
    | none => p) payload

/-- Run the `add` hooks of the registered components. -/
def runAddComponents (comps : List ServiceComponent) (i : Identity) (rid : RecordId)
    (payload : List CommunityRef) : List CommunityRef :=
  runComponentsHook (fun c => c.add.map (fun h => h i rid)) comps payload

/-- Run the `remove` hooks of the registered components. -/
def runRemoveComponents (comps : List ServiceComponent) (i : Identity) (rid : RecordId)
    (payload : List CommunityRef) : List CommunityRef :=
  runComponentsHook (fun c => c.remove.map (fun h => h i rid)) comps payload

/-- Run the `set_default` hooks of the registered components. -/
def runSetDefaultComponents (comps : List ServiceComponent) (i : Identity)
    (payload : RecordState × CommunityId) : RecordState × CommunityId :=
  runComponentsHook (fun c => c.set_default.map (fun h => h i)) comps payload

/-- Run the `bulk_add` hooks of the registered components. -/
def runBulkAddComponents (comps : List ServiceComponent) (i : Identity) (cid : CommunityId)
    (payload : List RecordId × Bool) : List RecordId × Bool :=
  runComponentsHook (fun c => c.bulk_add.map (fun h => h i cid)) comps payload

/-- Is `cid` among the communities of the record `rid` in store `s`? -/
def isAssociated (s : Store) (cid : CommunityId) (rid : RecordId) : Bool :=
  match s.resolve rid with
  | some rec => rec.communities.contains cid
  | none => false

/-- Modelled from the spec: one iteration of the `bulk_add` per-item loop
(section 4.2): resolve the record (a missing record is a systemic abort,
section 7), check current membership, and either record the per-item error
"Community already included." (`test_bulk_add_already_in_community`) or
perform the association.  The added community becomes the record's default
community when the set-default flag is on or the record has no default yet
(pinned by `test_bulk_add_component_called`). -/
def bulkAddItem (cid : CommunityId) (sd : Bool) (s : Store)
    (errs : List BulkErrorEntry) (rid : RecordId) :
    Except ServiceError (Store × List BulkErrorEntry) :=
  match s.resolve rid with
  | none => .error (.recordNotFound rid)
  | some rec =>
    if rec.communities.contains cid then
      .ok (s, errs ++ [{ record_id := rid, community_id := cid,
                         message := "Community already included." }])
    else
      let mkDefault := sd || rec.default.isNone
      let next : RecordState :=
        { communities := rec.communities ++ [cid],
          default := if mkDefault then some cid else rec.default }
      .ok (s.updateRecord rid next, errs)

/-- The `bulk_add` per-item loop over the (component-mutated) record ids,
threading the store and accumulating per-item errors. -/
def bulkAddLoop (cid : CommunityId) (sd : Bool) :
    List RecordId → Store → List BulkErrorEntry →
    Except ServiceError (Store × List BulkErrorEntry)
  | [], s, errs => .ok (s, errs)
  | rid :: rest, s, errs =>
    match bulkAddItem cid sd s errs rid with
    | .error e => .error e
    | .ok (s2, errs2) => bulkAddLoop cid sd rest s2 errs2

/-- Modelled from the spec: the `bulk_add` service operation (sections 4.2,
7, 8).  Authorization failure for a non-trusted identity aborts the entire
batch before per-item processing; otherwise the `bulk_add` component hooks
run over the mutable payload (record ids and set-default flag), then each
record id is processed independently.  Returns the error list alone
(successes are omitted); a raised error carries no new state (the unit of
work rolls back). -/
def bulk_add (comps : List ServiceComponent) (i : Identity) (cid : CommunityId)
    (record_ids : List RecordId) (sd : Bool) (s : Store) :
    Except ServiceError (List BulkErrorEntry × Store) :=
  if canPerform i then
    let payload := runBulkAddComponents comps i cid (record_ids, sd)
    match bulkAddLoop cid payload.2 payload.1 s [] with
    | .error e => .error e
    | .ok (s2, errs) => .ok (errs, s2)
  else
    .error .permissionDenied

/-- Modelled from the spec: one `add` item (sections 4.2, 7): duplicate
membership and unknown community are per-item errors; otherwise a
community-inclusion request is produced. -/
def addItem (s : Store) (rec : RecordState) (rid : RecordId) (c : CommunityRef) :
    Sum InclusionRequest BulkErrorEntry :=
  if rec.communities.contains c.id then
    .inr { record_id := rid, community_id := c.id,
           message := "Community already included." }
  else if s.communities.contains c.id then
    .inl { community_id := c.id }
  else
    .inr { record_id := rid, community_id := c.id,
           message := "Unknown community." }

/-- The `add` per-item loop, collecting inclusion requests and per-item
errors. -/
def addLoop (s : Store) (rec : RecordState) (rid : RecordId) :
    List CommunityRef → List InclusionRequest × List BulkErrorEntry
  | [] => ([], [])
  | c :: rest =>
    let next := addLoop s rec rid rest
    match addItem s rec rid c with
    | .inl r => (r :: next.1, next.2)
    | .inr e => (next.1, e :: next.2)

/-- Modelled from the spec: the `add` service operation (sections 4.2, 6,
8): resolve the record, check authorization, run the `add` component hooks
over the mutable communities payload, then process each (possibly mutated)
community reference into either an inclusion request or a per-item error.
Returns the pair (successful-request-list, error-list). -/
def add (comps : List ServiceComponent) (i : Identity) (rid : RecordId)
    (communities : List CommunityRef) (s : Store) :
    Except ServiceError (List InclusionRequest × List BulkErrorEntry) :=
  if canPerform i then
    match s.resolve rid with
    | none => .error (.recordNotFound rid)
    | some rec =>
      let payload := runAddComponents comps i rid communities
      .ok (addLoop s rec rid payload)
  else
    .error .permissionDenied

/-- The `remove` per-item loop: a community the record is a member of is
removed (clearing the default pointer when it was the default) and yields a
success entry; missing membership is a per-item error. -/
def removeLoop (rid : RecordId) :
    List CommunityRef → RecordState →
    RecordState × List RemovalResult × List BulkErrorEntry
  | [], rec => (rec, [], [])
  | c :: rest, rec =>
    if rec.communities.contains c.id then
      let rec2 : RecordState :=
        { communities := rec.communities.filter (fun x => x ≠ c.id),
          default := if rec.default = some c.id then none else rec.default }
      let next := removeLoop rid rest rec2
      (next.1, { community := c.id } :: next.2.1, next.2.2)
    else
      let next := removeLoop rid rest rec
      (next.1, next.2.1,
        { record_id := rid, community_id := c.id,
          message := "Record not included in the community." } :: next.2.2)

/-- Modelled from the spec: the `remove` service operation (sections 4.2,
7, 8): resolve the record, check authorization, run the `remove` component
hooks over the mutable communities payload, then process each (possibly
mutated) community reference, removing present memberships and collecting
per-item errors for missing ones.  Returns the pair
(successful-request-list, error-list) together with the new state. -/
def remove (comps : List ServiceComponent) (i : Identity) (rid : RecordId)
    (communities : List CommunityRef) (s : Store) :
    Except ServiceError (List RemovalResult × List BulkErrorEntry × Store) :=
  if canPerform i then
    match s.resolve rid with
    | none => .error (.recordNotFound rid)
    | some rec =>
      let payload := runRemoveComponents comps i rid communities
      let outcome := removeLoop rid payload rec
      .ok (outcome.2.1, outcome.2.2, s.updateRecord rid outcome.1)
  else
    .error .permissionDenied

/-- Modelled from the spec: the `set_default` service operation (section
4.3): resolve the record, check authorization, run the `set_default`
component hooks (which "may substitute a different target"), validate that
the effective target community is already associated with the record, then
update the record's default-community pointer to the effective target. -/
def set_default (comps : List ServiceComponent) (i : Identity) (rid : RecordId)
    (target : CommunityId) (s : Store) : Except ServiceError Store :=
  if canPerform i then
    match s.resolve rid with
    | none => .error (.recordNotFound rid)
    | some rec =>
      let payload := runSetDefaultComponents comps i (rec, target)
      if payload.1.communities.contains payload.2 then
        .ok (s.updateRecord rid { payload.1 with default := some payload.2 })
      else
        .error (.communityNotIncluded payload.2)
  else
    .error .permissionDenied

/-! ### Basic lemmas about the store and the bulk-add loop -/

theorem resolve_updateRecord_self (s : Store) (rid : RecordId) (st : RecordState) :
    (s.updateRecord rid st).resolve rid = some st := by
  simp [Store.updateRecord, Store.resolve]

theorem resolve_updateRecord_ne (s : Store) (rid r : RecordId) (st : RecordState)
    (h : r ≠ rid) : (s.updateRecord rid st).resolve r = s.resolve r := by
  simp [Store.updateRecord, Store.resolve, h]

theorem isSome_resolve_updateRecord (s : Store) (rid r : RecordId) (st : RecordState)
    (h : (s.resolve r).isSome) : ((s.updateRecord rid st).resolve r).isSome := by
  by_cases hr : r = rid
  · subst hr; simp [resolve_updateRecord_self]
  · rw [resolve_updateRecord_ne s rid r st hr]; exact h

theorem bulkAddItem_mono (cid : CommunityId) (sd : Bool) (s : Store)
    (errs : List BulkErrorEntry) (rid : RecordId) (s2 : Store)
    (errs2 : List BulkErrorEntry)
    (h : bulkAddItem cid sd s errs rid = .ok (s2, errs2)) :
    (∀ r, isAssociated s cid r = true → isAssociated s2 cid r = true) ∧
    (∀ r, (s.resolve r).isSome → (s2.resolve r).isSome) := by
  unfold bulkAddItem at h
  cases hres : s.resolve rid with
  | none => rw [hres] at h; exact absurd h (by simp)
  | some rec =>
    rw [hres] at h
    by_cases hc : rec.communities.contains cid = true
    · simp only [hc, if_true] at h
      have hs : s2 = s := by cases h; rfl
      subst hs
      exact ⟨fun r hr => hr, fun r hr => hr⟩
    · simp only [hc, if_false, Bool.false_eq_true] at h
      have hs : s2 = s.updateRecord rid
          { communities := rec.communities ++ [cid],
            default := if sd || rec.default.isNone then some cid else rec.default } := by
        cases h; rfl
      subst hs
      constructor
      · intro r hr
        by_cases hrr : r = rid
        · subst hrr
          unfold isAssociated at hr
          rw [hres] at hr
          exact absurd hr hc
        · unfold isAssociated
          rw [resolve_updateRecord_ne _ _ _ _ hrr]
          exact hr
      · intro r hr
        exact isSome_resolve_updateRecord _ _ _ _ hr

theorem bulkAddLoop_mono (cid : CommunityId) (sd : Bool) (rids : List RecordId) :
    ∀ (s : Store) (errs : List BulkErrorEntry) (s2 : Store)
      (errs2 : List BulkErrorEntry),
      bulkAddLoop cid sd rids s errs = .ok (s2, errs2) →
      (∀ r, isAssociated s cid r = true → isAssociated s2 cid r = true) ∧
      (∀ r, (s.resolve r).isSome → (s2.resolve r).isSome) := by
  induction rids with
  | nil =>
    intro s errs s2 errs2 h
    unfold bulkAddLoop at h
    cases h
    exact ⟨fun r hr => hr, fun r hr => hr⟩
  | cons rid rest ih =>
    intro s errs s2 errs2 h
    unfold bulkAddLoop at h
    cases hitem : bulkAddItem cid sd s errs rid with
    | error e => rw [hitem] at h; exact absurd h (by simp)
    | ok p =>
      rw [hitem] at h
      obtain ⟨hm1, hm2⟩ := bulkAddItem_mono cid sd s errs rid p.1 p.2 hitem
      obtain ⟨hl1, hl2⟩ := ih p.1 p.2 s2 errs2 h
      exact ⟨fun r hr => hl1 r (hm1 r hr), fun r hr => hl2 r (hm2 r hr)⟩

theorem bulkAddLoop_associates (cid : CommunityId) (sd : Bool) (rids : List RecordId) :
    ∀ (s : Store) (errs : List BulkErrorEntry),
      (∀ r ∈ rids, (s.resolve r).isSome) →
      ∃ s2 errs2, bulkAddLoop cid sd rids s errs = .ok (s2, errs2) ∧
        ∀ r ∈ rids, isAssociated s2 cid r = true := by
  induction rids with
  | nil =>
    intro s errs _
    exact ⟨s, errs, rfl, by simp⟩
  | cons rid rest ih =>
    intro s errs hres
    obtain ⟨rec, hrec⟩ := Option.isSome_iff_exists.mp (hres rid (by simp))
    by_cases hc : rec.communities.contains cid = true
    · obtain ⟨s2, errs2, heq, hassoc⟩ :=
        ih s (errs ++ [{ record_id := rid, community_id := cid,
                         message := "Community already included." }])
          (fun r hr => hres r (List.mem_cons_of_mem rid hr))
      refine ⟨s2, errs2, ?_, ?_⟩
      · unfold bulkAddLoop bulkAddItem
        rw [hrec]
        simp only [hc, if_true]
        exact heq
      · intro r hr
        rcases List.mem_cons.mp hr with hr | hr
        · subst hr
          have hstart : isAssociated s cid r = true := by
            unfold isAssociated; rw [hrec]; exact hc
          exact (bulkAddLoop_mono cid sd rest _ _ _ _ heq).1 r hstart
        · exact hassoc r hr
    · set next : RecordState :=
        { communities := rec.communities ++ [cid],
          default := if sd || rec.default.isNone then some cid else rec.default } with hnext
      obtain ⟨s2, errs2, heq, hassoc⟩ := ih (s.updateRecord rid next) errs
        (fun r hr => isSome_resolve_updateRecord _ _ _ _ (hres r (List.mem_cons_of_mem rid hr)))
      refine ⟨s2, errs2, ?_, ?_⟩
      · unfold bulkAddLoop bulkAddItem
        rw [hrec]
        simp only [hc, if_false, Bool.false_eq_true]
        exact heq
      · intro r hr
        rcases List.mem_cons.mp hr with hr | hr
        · subst hr
          have hstart : isAssociated (s.updateRecord r next) cid r = true := by
            unfold isAssociated
            rw [resolve_updateRecord_self]
            simp [hnext]
          exact (bulkAddLoop_mono cid sd rest _ _ _ _ heq).1 r hstart
        · exact hassoc r hr

theorem bulkAddLoop_spec (cid : CommunityId) (sd : Bool) (rids : List RecordId) :
    ∀ (s : Store) (errs : List BulkErrorEntry),
      (∀ r ∈ rids, (s.resolve r).isSome) → rids.Nodup →
      ∃ s2 errsNew, bulkAddLoop cid sd rids s errs = .ok (s2, errs ++ errsNew) ∧
        errsNew.length = rids.countP (fun r => isAssociated s cid r) ∧
        (∀ r, r ∉ rids → s2.resolve r = s.resolve r) ∧
        (∀ r ∈ rids, isAssociated s cid r = true → s2.resolve r = s.resolve r) ∧
        (∀ r ∈ rids, ∀ rec, s.resolve r = some rec → isAssociated s cid r = false →
          s2.resolve r = some { communities := rec.communities ++ [cid],
                                default := if sd || rec.default.isNone then some cid
                                           else rec.default }) := by
  induction rids with
  | nil =>
    intro s errs _ _
    exact ⟨s, [], by simp [bulkAddLoop], by simp, fun r _ => rfl, by simp, by simp⟩
  | cons rid rest ih =>
    intro s errs hres hnd
    rw [List.nodup_cons] at hnd
    obtain ⟨hnotin, hnd2⟩ := hnd
    obtain ⟨rec, hrec⟩ := Option.isSome_iff_exists.mp (hres rid (by simp))
    have hassoc_rid : isAssociated s cid rid = rec.communities.contains cid := by
      unfold isAssociated; rw [hrec]
    by_cases hc : rec.communities.contains cid = true
    · obtain ⟨s2, errsNew2, heq, hlen, hunt, hunch, hupd⟩ :=
        ih s (errs ++ [{ record_id := rid, community_id := cid,
                         message := "Community already included." }])
          (fun r hr => hres r (List.mem_cons_of_mem rid hr)) hnd2
      refine ⟨s2, { record_id := rid, community_id := cid,
                    message := "Community already included." } :: errsNew2, ?_, ?_, ?_, ?_, ?_⟩
      · unfold bulkAddLoop bulkAddItem
        rw [hrec]
        simp only [hc, if_true]
        rw [heq]
        simp
      · have hp : isAssociated s cid rid = true := by rw [hassoc_rid]; exact hc
        rw [List.countP_cons]
        simp [hp, hlen]
      · intro r hr
        simp only [List.mem_cons, not_or] at hr
        exact hunt r hr.2
      · intro r hr hra
        rcases List.mem_cons.mp hr with hr | hr
        · subst hr
          exact hunt r hnotin
        · exact hunch r hr hra
      · intro r hr rec0 hr0 hra
        rcases List.mem_cons.mp hr with hr | hr
        · subst hr
          rw [hassoc_rid, hc] at hra
          exact absurd hra (by simp)
        · exact hupd r hr rec0 hr0 hra
    · set next : RecordState :=
        { communities := rec.communities ++ [cid],
          default := if sd || rec.default.isNone then some cid else rec.default } with hnext
      have hne_of_mem : ∀ r ∈ rest, r ≠ rid := fun r hr he => hnotin (he ▸ hr)
      have hres_eq : ∀ r ∈ rest, (s.updateRecord rid next).resolve r = s.resolve r :=
        fun r hr => resolve_updateRecord_ne s rid r next (hne_of_mem r hr)
      have hassoc_eq : ∀ r ∈ rest,
          isAssociated (s.updateRecord rid next) cid r = isAssociated s cid r := by
        intro r hr
        unfold isAssociated
        rw [hres_eq r hr]
      obtain ⟨s2, errsNew2, heq, hlen, hunt, hunch, hupd⟩ :=
        ih (s.updateRecord rid next) errs
          (fun r hr => by
            rw [hres_eq r hr]
            exact hres r (List.mem_cons_of_mem rid hr)) hnd2
      refine ⟨s2, errsNew2, ?_, ?_, ?_, ?_, ?_⟩
      · unfold bulkAddLoop bulkAddItem
        rw [hrec]
        simp only [hc, if_false, Bool.false_eq_true]
        exact heq
      · have hcf : rec.communities.contains cid = false := by
          exact Bool.not_eq_true _ ▸ (eq_false_of_ne_true hc)
        have hp : isAssociated s cid rid = false := by rw [hassoc_rid]; exact hcf
        have hcnt : List.countP (fun r => isAssociated (s.updateRecord rid next) cid r) rest =
            List.countP (fun r => isAssociated s cid r) rest :=
          List.countP_congr (fun r hr => by rw [hassoc_eq r hr])
        rw [List.countP_cons, hlen, hcnt]
        simp [hp]
      · intro r hr
        simp only [List.mem_cons, not_or] at hr
        rw [hunt r hr.2]
        exact resolve_updateRecord_ne s rid r next hr.1
      · intro r hr hra
        rcases List.mem_cons.mp hr with hr | hr
        · subst hr
          rw [hassoc_rid] at hra
          exact absurd hra hc
        · rw [hunch r hr (by rw [hassoc_eq r hr]; exact hra)]
          exact hres_eq r hr
      · intro r hr rec0 hr0 hra
        rcases List.mem_cons.mp hr with hr | hr
        · subst hr
          have : rec0 = rec := by rw [hrec] at hr0; exact (Option.some.inj hr0).symm
          subst this
          rw [hunt r hnotin, resolve_updateRecord_self]
        · rw [hupd r hr rec0 (by rw [hres_eq r hr]; exact hr0)
            (by rw [hassoc_eq r hr]; exact hra)]

theorem addLoop_length (s : Store) (rec : RecordState) (rid : RecordId)
    (cs : List CommunityRef) :
    (addLoop s rec rid cs).1.length + (addLoop s rec rid cs).2.length = cs.length := by
  induction cs with
  | nil => rfl
  | cons c rest ih =>
    unfold addLoop
    cases h : addItem s rec rid c with
    | inl r => simp only [h, List.length_cons]; omega
    | inr e => simp only [h, List.length_cons]; omega

theorem removeLoop_length (rid : RecordId) (cs : List CommunityRef) :
    ∀ rec : RecordState,
      (removeLoop rid cs rec).2.1.length + (removeLoop rid cs rec).2.2.length = cs.length := by
  induction cs with
  | nil => intro rec; rfl
  | cons c rest ih =>
    intro rec
    unfold removeLoop
    by_cases h : rec.communities.contains c.id = true
    · simp only [h, if_true, List.length_cons]
      have := ih { communities := rec.communities.filter (fun x => x ≠ c.id),
                   default := if rec.default = some c.id then none else rec.default }
      omega
    · simp only [eq_false_of_ne_true h, if_false, Bool.false_eq_true, List.length_cons]
      have := ih rec
      omega

/-! ### Example states, identities and components used as concrete inputs -/

/-- A non-authorized regular identity (the `uploader` of the tests). -/
def uploaderIdentity : Identity := { isSystem := false, permitted := false }

/-- A component implementing only the `add` hook, dropping the last entry of
the mutable communities payload (`MockAddComponent` of the tests;
`communities.pop(-1)`). -/
def MockAddComponent : ServiceComponent :=
  { add := some (fun _ _ cs => cs.dropLast) }

/-- A component implementing only the `remove` hook, dropping the last entry
of the mutable communities payload (`MockRemoveComponent` of the tests). -/
def MockRemoveComponent : ServiceComponent :=
  { remove := some (fun _ _ cs => cs.dropLast) }

/-- A component implementing only the `set_default` hook, substituting
community `20` (the tests' `community2`) as the effective target
(`MockSetDefaultComponent` of the tests). -/
def MockSetDefaultComponent : ServiceComponent :=
  { set_default := some (fun _ p => (p.1, 20)) }

/-- A component implementing only the `bulk_add` hook, dropping the last
record id and forcing the mutable set-default flag to `False`
(`MockBulkAddComponent` of the tests). -/
def MockBulkAddComponent : ServiceComponent :=
  { bulk_add := some (fun _ _ p => (p.1.dropLast, false)) }

/-- A store with no records and no communities. -/
def emptyStore : Store := { records := fun _ => none, communities := [] }

/-- A store with three fresh records (ids 1, 2, 3) belonging to no
community, and two communities (ids 10, 20). -/
def freshStore : Store :=
  { records := fun r =>
      if r = 1 then some { communities := [], default := none }
      else if r = 2 then some { communities := [], default := none }
      else if r = 3 then some { communities := [], default := none }
      else none,
    communities := [10, 20] }

/-- A store with one record (id 1) already in community 10 (its default),
and two communities (ids 10, 20). -/
def memberStore : Store :=
  { records := fun r =>
      if r = 1 then some { communities := [10], default := some 10 }
      else none,
    communities := [10, 20] }

/-- A store with one record (id 1) in communities 10 and 20 with default
10, as set up by `test_set_default_component_called`. -/
def twoCommunityStore : Store :=
  { records := fun r =>
      if r = 1 then some { communities := [10, 20], default := some 10 }
      else none,
    communities := [10, 20] }

/-! ### Claims -/

/-- Claim C1: a `bulk_add` call whose identity lacks the required
permission (and is not the trusted/system identity) fails with
PermissionDenied before any per-item processing: the call evaluates to the
permission error for every community, payload, flag and store, and no new
store (hence no modified community association) is produced. -/
theorem bulk_add_permission_denied (comps : List ServiceComponent) (i : Identity)
    (cid : CommunityId) (rids : List RecordId) (sd : Bool) (s : Store)
    (h : canPerform i = false) :
    bulk_add comps i cid rids sd s = .error .permissionDenied := by
  unfold bulk_add
  rw [h]
  simp

/-- Witness for C1: the uploader identity of
`test_bulk_add_non_authorized_permission`. -/
theorem bulk_add_permission_denied_witness :
    bulk_add [] uploaderIdentity 10 [1] false freshStore = .error .permissionDenied :=
  bulk_add_permission_denied [] uploaderIdentity 10 [1] false freshStore rfl

/-- Claim C2: a `bulk_add` call by the trusted/system identity (no
components configured) on resolvable records, none of which is already in
the community, succeeds, and every listed record is associated with the
community in the resulting persisted state. -/
theorem bulk_add_system_associates (cid : CommunityId) (rids : List RecordId)
    (sd : Bool) (s : Store)
    (hres : ∀ r ∈ rids, (s.resolve r).isSome)
    (hnew : ∀ r ∈ rids, isAssociated s cid r = false) :
    ∃ errs s2, bulk_add [] systemIdentity cid rids sd s = .ok (errs, s2) ∧
      ∀ r ∈ rids, isAssociated s2 cid r = true := by
  obtain ⟨s2, errs2, heq, hassoc⟩ := bulkAddLoop_associates cid sd rids s [] hres
  refine ⟨errs2, s2, ?_, hassoc⟩
  unfold bulk_add runBulkAddComponents runComponentsHook
  simp only [canPerform, systemIdentity, Bool.true_or, if_true, List.foldl_nil]
  rw [heq]

/-- Witness for C2: the three fresh records of `test_bulk_add`. -/
theorem bulk_add_system_associates_witness :
    ∃ errs s2, bulk_add [] systemIdentity 10 [1, 2, 3] false freshStore = .ok (errs, s2) ∧
      ∀ r ∈ [1, 2, 3], isAssociated s2 10 r = true :=
  bulk_add_system_associates 10 [1, 2, 3] false freshStore (by decide) (by decide)

/-- Claim C3: a `bulk_add` call targeting a record already associated with
the community returns exactly the error entry
`record_id / community_id / "Community already included."` for that record,
and the persisted state is returned unchanged. -/
theorem bulk_add_already_included (i : Identity) (cid : CommunityId) (rid : RecordId)
    (sd : Bool) (s : Store) (rec : RecordState)
    (hperm : canPerform i = true)
    (hres : s.resolve rid = some rec)
    (hin : cid ∈ rec.communities) :
    bulk_add [] i cid [rid] sd s =
      .ok ([{ record_id := rid, community_id := cid,
              message := "Community already included." }], s) := by
  have hc : rec.communities.contains cid = true := by
    simpa using hin
  unfold bulk_add runBulkAddComponents runComponentsHook bulkAddLoop bulkAddItem
  rw [hperm]
  simp only [if_true, List.foldl_nil, hres, hc]
  rfl

/-- Witness for C3: record 1 of `memberStore` is already in community 10. -/
theorem bulk_add_already_included_witness :
    bulk_add [] systemIdentity 10 [1] false memberStore =
      .ok ([{ record_id := 1, community_id := 10,
              message := "Community already included." }], memberStore) :=
  bulk_add_already_included systemIdentity 10 1 false memberStore
    { communities := [10], default := some 10 } rfl rfl (by decide)

/-- Claim C4: in a `remove` call (no components configured), a requested
community the record is not a member of yields a per-item error entry and
leaves the record's community state unchanged (every resolution in the
resulting store equals the original), while a requested community the
record is a member of is removed successfully, contributing a success entry
and no error entry. -/
theorem remove_member_and_nonmember (i : Identity) (rid : RecordId)
    (cid : CommunityId) (s : Store) (rec : RecordState)
    (hperm : canPerform i = true)
    (hres : s.resolve rid = some rec) :
    (cid ∉ rec.communities →
      remove [] i rid [⟨cid⟩] s =
        .ok ([], [{ record_id := rid, community_id := cid,
                    message := "Record not included in the community." }],
             s.updateRecord rid rec) ∧
      ∀ r, (s.updateRecord rid rec).resolve r = s.resolve r) ∧
    (cid ∈ rec.communities →
      remove [] i rid [⟨cid⟩] s =
        .ok ([{ community := cid }], [],
          s.updateRecord rid
            { communities := rec.communities.filter (fun x => x ≠ cid),
              default := if rec.default = some cid then none
                         else rec.default })) := by
  constructor
  · intro hout
    have hc : rec.communities.contains cid = false := by
      simpa using hout
    constructor
    · unfold remove runRemoveComponents runComponentsHook removeLoop
      rw [hperm]
      simp only [if_true, List.foldl_nil, hres, hc]
      rfl
    · intro r
      by_cases hr : r = rid
      · subst hr
        rw [resolve_updateRecord_self, hres]
      · exact resolve_updateRecord_ne s rid r rec hr
  · intro hin
    have hc : rec.communities.contains cid = true := by
      simpa using hin
    unfold remove runRemoveComponents runComponentsHook removeLoop
    rw [hperm]
    simp only [if_true, List.foldl_nil, hres, hc]
    rfl

/-- Witness for C4: record 1 of `memberStore` is a member of community 10
and not a member of community 20. -/
theorem remove_member_and_nonmember_witness :
    (remove [] systemIdentity 1 [⟨20⟩] memberStore =
        .ok ([], [{ record_id := 1, community_id := 20,
                    message := "Record not included in the community." }],
             memberStore.updateRecord 1 { communities := [10], default := some 10 }) ∧
      ∀ r, (memberStore.updateRecord 1
          { communities := [10], default := some 10 }).resolve r =
        memberStore.resolve r) ∧
    remove [] systemIdentity 1 [⟨10⟩] memberStore =
      .ok ([{ community := 10 }], [],
        memberStore.updateRecord 1
          { communities := ([10] : List CommunityId).filter (fun x => x ≠ 10),
            default := if (some 10 : Option CommunityId) = some 10 then none
                       else some 10 }) :=
  ⟨(remove_member_and_nonmember systemIdentity 1 20 memberStore
      { communities := [10], default := some 10 } rfl rfl).1 (by decide),
   (remove_member_and_nonmember systemIdentity 1 10 memberStore
      { communities := [10], default := some 10 } rfl rfl).2 (by decide)⟩

/-- Claim C5: an `add` (respectively `remove`) call with a configured
component whose hook drops the last item of the mutable communities payload
produces, in total, exactly one fewer request/error than the number of
items originally requested: the component's in-place mutation is observed
by the core per-item processing. -/
theorem component_drops_last_one_fewer_outcome (i : Identity) (rid : RecordId)
    (cs : List CommunityRef) (s : Store) (rec : RecordState)
    (hperm : canPerform i = true)
    (hres : s.resolve rid = some rec)
    (hne : cs ≠ []) :
    (∃ reqs errs, add [MockAddComponent] i rid cs s = .ok (reqs, errs) ∧
       reqs.length + errs.length + 1 = cs.length) ∧
    (∃ res errs s2, remove [MockRemoveComponent] i rid cs s = .ok (res, errs, s2) ∧
       res.length + errs.length + 1 = cs.length) := by
  have hlen : cs.dropLast.length + 1 = cs.length := by
    have h1 : cs.dropLast.length = cs.length - 1 := List.length_dropLast cs
    have h2 : 0 < cs.length := List.length_pos.mpr hne
    omega
  constructor
  · refine ⟨(addLoop s rec rid cs.dropLast).1, (addLoop s rec rid cs.dropLast).2, ?_, ?_⟩
    · unfold add runAddComponents runComponentsHook MockAddComponent
      rw [hperm]
      simp only [if_true, hres, List.foldl_cons, List.foldl_nil]
      rfl
    · rw [addLoop_length]
      exact hlen
  · refine ⟨(removeLoop rid cs.dropLast rec).2.1, (removeLoop rid cs.dropLast rec).2.2,
      s.updateRecord rid (removeLoop rid cs.dropLast rec).1, ?_, ?_⟩
    · unfold remove runRemoveComponents runComponentsHook MockRemoveComponent
      rw [hperm]
      simp only [if_true, hres, List.foldl_cons, List.foldl_nil]
      rfl
    · rw [removeLoop_length]
      exact hlen

/-- Witness for C5: the two-item payload of `test_add_component_called`
(community 10 exists, community 99 does not). -/
theorem component_drops_last_one_fewer_outcome_witness :
    (∃ reqs errs, add [MockAddComponent] systemIdentity 1 [⟨10⟩, ⟨99⟩] freshStore =
        .ok (reqs, errs) ∧ reqs.length + errs.length + 1 = 2) ∧
    (∃ res errs s2, remove [MockRemoveComponent] systemIdentity 1 [⟨10⟩, ⟨99⟩] freshStore =
        .ok (res, errs, s2) ∧ res.length + errs.length + 1 = 2) :=
  component_drops_last_one_fewer_outcome systemIdentity 1 [⟨10⟩, ⟨99⟩] freshStore
    { communities := [], default := none } rfl rfl (by decide)

theorem countP_bool_split {α : Type} (p : α → Bool) (l : List α) :
    l.countP p + l.countP (fun a => !p a) = l.length := by
  induction l with
  | nil => rfl
  | cons a l ih =>
    rw [List.countP_cons, List.countP_cons]
    cases h : p a <;> simp [h] <;> omega

/-- Counterexample to claim C6 as stated: with the tests'
`MockSetDefaultComponent` configured (it substitutes community 20 as the
target), a `set_default` call passing target community 10 on a record
belonging to communities 10 and 20 succeeds, yet the record's resulting
default-community pointer is 20, not the community id 10 passed to the
call. -/
theorem set_default_passed_target_counterexample :
    (set_default [MockSetDefaultComponent] systemIdentity 1 10 twoCommunityStore).map
        (fun s2 => (s2.resolve 1).map RecordState.default) = .ok (some (some 20)) ∧
      some (some (20 : CommunityId)) ≠ some (some (10 : CommunityId)) :=
  ⟨rfl, by decide⟩

/-- Claim C6 (amended): a `set_default` call succeeds exactly when the
effective target community — the id passed to the call, possibly
substituted by a `set_default` component hook running before the core
mutation — is already associated with the record, and after a successful
call the record's default-community pointer equals that effective target
(which is the passed id whenever no component substitutes it). -/
theorem set_default_effective_target (comps : List ServiceComponent) (i : Identity)
    (rid : RecordId) (target : CommunityId) (s : Store) (rec : RecordState)
    (hperm : canPerform i = true)
    (hres : s.resolve rid = some rec) :
    ((runSetDefaultComponents comps i (rec, target)).2 ∈
        (runSetDefaultComponents comps i (rec, target)).1.communities →
      set_default comps i rid target s =
        .ok (s.updateRecord rid
          { communities := (runSetDefaultComponents comps i (rec, target)).1.communities,
            default := some (runSetDefaultComponents comps i (rec, target)).2 }) ∧
      ((s.updateRecord rid
          { communities := (runSetDefaultComponents comps i (rec, target)).1.communities,
            default := some (runSetDefaultComponents comps i (rec, target)).2 }).resolve
          rid).map RecordState.default =
        some (some (runSetDefaultComponents comps i (rec, target)).2)) ∧
    ((runSetDefaultComponents comps i (rec, target)).2 ∉
        (runSetDefaultComponents comps i (rec, target)).1.communities →
      set_default comps i rid target s =
        .error (.communityNotIncluded (runSetDefaultComponents comps i (rec, target)).2)) := by
  constructor
  · intro hin
    have hc : (runSetDefaultComponents comps i (rec, target)).1.communities.contains
        (runSetDefaultComponents comps i (rec, target)).2 = true := by
      simpa using hin
    constructor
    · unfold set_default
      rw [hperm]
      simp only [if_true, hres, hc]
    · rw [resolve_updateRecord_self]
      rfl
  · intro hout
    have hc : (runSetDefaultComponents comps i (rec, target)).1.communities.contains
        (runSetDefaultComponents comps i (rec, target)).2 = false := by
      simpa using hout
    unfold set_default
    rw [hperm]
    simp only [if_true, hres, hc]
    rfl

/-- Witness for C6 (amended): a component-free `set_default` call moving
the default of record 1 from community 10 to community 20. -/
theorem set_default_effective_target_witness :
    set_default [] systemIdentity 1 20 twoCommunityStore =
      .ok (twoCommunityStore.updateRecord 1
        { communities := [10, 20], default := some 20 }) ∧
    ((twoCommunityStore.updateRecord 1
        { communities := [10, 20], default := some 20 }).resolve 1).map
      RecordState.default = some (some 20) :=
  (set_default_effective_target [] systemIdentity 1 20 twoCommunityStore
    { communities := [10, 20], default := some 10 } rfl rfl).1 (by decide)

/-- Counterexample to claim C7 as stated: in the `add` call of
`test_add_component_called`, two (record, community) pairs are originally
requested, but with the configured component dropping the last payload item
only one outcome (a single request, no errors) is recorded, so the dropped
pair (record 1, community 20) receives no outcome at all. -/
theorem add_requested_pair_counterexample :
    add [MockAddComponent] systemIdentity 1 [⟨10⟩, ⟨20⟩] freshStore =
        .ok ([⟨10⟩], []) ∧
      ([⟨10⟩, ⟨20⟩] : List CommunityRef).length = 2 :=
  ⟨rfl, rfl⟩

/-- Claim C7 (amended): for every `add`, `remove` and `bulk_add` call, and
for every item of the payload as it stands after the component pipeline has
run (for `bulk_add`, with the effective record ids pairwise distinct),
exactly one outcome is recorded: for `add` and `remove` the produced
requests and error entries together number exactly the effective items; for
`bulk_add` the already-associated effective records each contribute one
error entry, the remaining effective records each become associated, and
the error count plus the count of newly associated records equals the
number of effective items. -/
theorem one_outcome_per_effective_item (comps : List ServiceComponent) (i : Identity)
    (rid : RecordId) (cs : List CommunityRef) (cid : CommunityId)
    (rids : List RecordId) (sd : Bool) (s : Store) (rec : RecordState)
    (hperm : canPerform i = true)
    (hres : s.resolve rid = some rec)
    (hresB : ∀ r ∈ (runBulkAddComponents comps i cid (rids, sd)).1, (s.resolve r).isSome)
    (hndB : (runBulkAddComponents comps i cid (rids, sd)).1.Nodup) :
    (add comps i rid cs s =
        .ok (addLoop s rec rid (runAddComponents comps i rid cs)) ∧
      (addLoop s rec rid (runAddComponents comps i rid cs)).1.length +
          (addLoop s rec rid (runAddComponents comps i rid cs)).2.length =
        (runAddComponents comps i rid cs).length) ∧
    (remove comps i rid cs s =
        .ok ((removeLoop rid (runRemoveComponents comps i rid cs) rec).2.1,
          (removeLoop rid (runRemoveComponents comps i rid cs) rec).2.2,
          s.updateRecord rid (removeLoop rid (runRemoveComponents comps i rid cs) rec).1) ∧
      (removeLoop rid (runRemoveComponents comps i rid cs) rec).2.1.length +
          (removeLoop rid (runRemoveComponents comps i rid cs) rec).2.2.length =
        (runRemoveComponents comps i rid cs).length) ∧
    (∃ s2 errs, bulk_add comps i cid rids sd s = .ok (errs, s2) ∧
      errs.length = (runBulkAddComponents comps i cid (rids, sd)).1.countP
          (fun r => isAssociated s cid r) ∧
      (∀ r ∈ (runBulkAddComponents comps i cid (rids, sd)).1,
         isAssociated s2 cid r = true) ∧
      errs.length + (runBulkAddComponents comps i cid (rids, sd)).1.countP
          (fun r => !(isAssociated s cid r)) =
        (runBulkAddComponents comps i cid (rids, sd)).1.length) := by
  refine ⟨⟨?_, ?_⟩, ⟨?_, ?_⟩, ?_⟩
  · unfold add
    rw [hperm]
    simp only [if_true, hres]
  · exact addLoop_length s rec rid (runAddComponents comps i rid cs)
  · unfold remove
    rw [hperm]
    simp only [if_true, hres]
  · exact removeLoop_length rid (runRemoveComponents comps i rid cs) rec
  · obtain ⟨s2, errsNew, heq, hlen, hunt, hunch, hupd⟩ :=
      bulkAddLoop_spec cid (runBulkAddComponents comps i cid (rids, sd)).2
        (runBulkAddComponents comps i cid (rids, sd)).1 s [] hresB hndB
    refine ⟨s2, errsNew, ?_, ?_, ?_, ?_⟩
    · unfold bulk_add
      rw [hperm]
      simp only [if_true]
      rw [heq]
      simp
    · simpa using hlen
    · intro r hr
      by_cases ha : isAssociated s cid r = true
      · have := hunch r hr ha
        unfold isAssociated at ha ⊢
        rw [this]
        exact ha
      · obtain ⟨rec0, hrec0⟩ := Option.isSome_iff_exists.mp (hresB r hr)
        have hupd2 := hupd r hr rec0 hrec0 (eq_false_of_ne_true ha)
        unfold isAssociated
        rw [hupd2]
        simp
    · have hsplit := countP_bool_split
        (fun r => isAssociated s cid r) (runBulkAddComponents comps i cid (rids, sd)).1
      omega

/-- Witness for C7 (amended): `add` and `remove` with the last-dropping
component on record 1 and payload communities 10 and 99, and `bulk_add` on
the fresh records 2 and 3. -/
theorem one_outcome_per_effective_item_witness :
    (add [MockAddComponent] systemIdentity 1 [⟨10⟩, ⟨99⟩] freshStore =
        .ok (addLoop freshStore { communities := [], default := none } 1
          (runAddComponents [MockAddComponent] systemIdentity 1 [⟨10⟩, ⟨99⟩])) ∧
      (addLoop freshStore { communities := [], default := none } 1
          (runAddComponents [MockAddComponent] systemIdentity 1 [⟨10⟩, ⟨99⟩])).1.length +
          (addLoop freshStore { communities := [], default := none } 1
            (runAddComponents [MockAddComponent] systemIdentity 1 [⟨10⟩, ⟨99⟩])).2.length =
        (runAddComponents [MockAddComponent] systemIdentity 1 [⟨10⟩, ⟨99⟩]).length) ∧
    (remove [MockAddComponent] systemIdentity 1 [⟨10⟩, ⟨99⟩] freshStore =
        .ok ((removeLoop 1 (runRemoveComponents [MockAddComponent] systemIdentity 1
            [⟨10⟩, ⟨99⟩]) { communities := [], default := none }).2.1,
          (removeLoop 1 (runRemoveComponents [MockAddComponent] systemIdentity 1
            [⟨10⟩, ⟨99⟩]) { communities := [], default := none }).2.2,
          freshStore.updateRecord 1
            (removeLoop 1 (runRemoveComponents [MockAddComponent] systemIdentity 1
              [⟨10⟩, ⟨99⟩]) { communities := [], default := none }).1) ∧
      (removeLoop 1 (runRemoveComponents [MockAddComponent] systemIdentity 1
          [⟨10⟩, ⟨99⟩]) { communities := [], default := none }).2.1.length +
          (removeLoop 1 (runRemoveComponents [MockAddComponent] systemIdentity 1
            [⟨10⟩, ⟨99⟩]) { communities := [], default := none }).2.2.length =
        (runRemoveComponents [MockAddComponent] systemIdentity 1 [⟨10⟩, ⟨99⟩]).length) ∧
    (∃ s2 errs, bulk_add [MockAddComponent] systemIdentity 10 [2, 3] false freshStore =
        .ok (errs, s2) ∧
      errs.length = (runBulkAddComponents [MockAddComponent] systemIdentity 10
          ([2, 3], false)).1.countP (fun r => isAssociated freshStore 10 r) ∧
      (∀ r ∈ (runBulkAddComponents [MockAddComponent] systemIdentity 10
          ([2, 3], false)).1, isAssociated s2 10 r = true) ∧
      errs.length + (runBulkAddComponents [MockAddComponent] systemIdentity 10
          ([2, 3], false)).1.countP (fun r => !(isAssociated freshStore 10 r)) =
        (runBulkAddComponents [MockAddComponent] systemIdentity 10
          ([2, 3], false)).1.length) :=
  one_outcome_per_effective_item [MockAddComponent] systemIdentity 1 [⟨10⟩, ⟨99⟩]
    10 [2, 3] false freshStore { communities := [], default := none }
    rfl rfl (by decide) (by decide)

/-- Claim C8: the result shape is fixed per operation.  `add` and `remove`
return a pair (successful-request-list, error-list) — visible in the return
types of `add` and `remove` — while `bulk_add` returns an error list alone
with successes silently omitted: a `bulk_add` in which every (distinct,
resolvable, not-yet-associated) record succeeds returns the empty error
list. -/
theorem bulk_add_all_success_empty_errors (cid : CommunityId) (rids : List RecordId)
    (sd : Bool) (s : Store)
    (hres : ∀ r ∈ rids, (s.resolve r).isSome)
    (hnd : rids.Nodup)
    (hnew : ∀ r ∈ rids, isAssociated s cid r = false) :
    ∃ s2, bulk_add [] systemIdentity cid rids sd s = .ok ([], s2) := by
  obtain ⟨s2, errsNew, heq, hlen, _, _, _⟩ := bulkAddLoop_spec cid sd rids s [] hres hnd
  have h0 : errsNew.length = 0 := by
    rw [hlen]
    exact List.countP_eq_zero.mpr (fun r hr => by simp [hnew r hr])
  have hnil : errsNew = [] := List.length_eq_zero.mp h0
  subst hnil
  refine ⟨s2, ?_⟩
  unfold bulk_add runBulkAddComponents runComponentsHook
  simp only [canPerform, systemIdentity, Bool.true_or, if_true, List.foldl_nil]
  rw [heq]
  rfl

/-- Witness for C8: the three fresh records of `test_bulk_add_component_called`
(without components), all successfully added: the error list comes back
empty. -/
theorem bulk_add_all_success_empty_errors_witness :
    ∃ s2, bulk_add [] systemIdentity 10 [1, 2, 3] false freshStore = .ok ([], s2) :=
  bulk_add_all_success_empty_errors 10 [1, 2, 3] false freshStore
    (by decide) (by decide) (by decide)

/-- Claim C9: the pipeline invoker calls a named hook on every registered
component in registration order and skips, silently, components that do not
implement the hook.  The first conjunct is the registration-order
(sequential composition) law; the second says a hookless component anywhere
in the list is a no-op; the third says a component implementing the hook is
invoked, at its position, on the payload produced by the components before
it. -/
theorem runComponentsHook_dispatch {α : Type} (hookOf : ServiceComponent → Option (α → α))
    (l1 l2 : List ServiceComponent) (c : ServiceComponent) (p : α) :
    (runComponentsHook hookOf (l1 ++ l2) p =
       runComponentsHook hookOf l2 (runComponentsHook hookOf l1 p)) ∧
    (hookOf c = none →
       runComponentsHook hookOf (l1 ++ c :: l2) p =
         runComponentsHook hookOf (l1 ++ l2) p) ∧
    (∀ f, hookOf c = some f →
       runComponentsHook hookOf (l1 ++ c :: l2) p =
         runComponentsHook hookOf l2 (f (runComponentsHook hookOf l1 p))) := by
  refine ⟨?_, ?_, ?_⟩
  · unfold runComponentsHook
    rw [List.foldl_append]
  · intro h
    unfold runComponentsHook
    rw [List.foldl_append, List.foldl_append, List.foldl_cons]
    simp [h]
  · intro f hf
    unfold runComponentsHook
    rw [List.foldl_append, List.foldl_cons]
    simp [hf]

/-- Witness for C9: on the `add` hook, the hookless `MockRemoveComponent`
sitting between two components is skipped, and `MockAddComponent` is
invoked on the payload produced by the component before it. -/
theorem runComponentsHook_dispatch_witness :
    (runComponentsHook (fun c => c.add.map (fun h => h systemIdentity 1))
        ([MockAddComponent] ++ MockRemoveComponent :: [MockAddComponent])
        ([⟨10⟩, ⟨20⟩, ⟨30⟩] : List CommunityRef) =
      runComponentsHook (fun c => c.add.map (fun h => h systemIdentity 1))
        ([MockAddComponent] ++ [MockAddComponent])
        ([⟨10⟩, ⟨20⟩, ⟨30⟩] : List CommunityRef)) ∧
    (runComponentsHook (fun c => c.add.map (fun h => h systemIdentity 1))
        ([MockAddComponent] ++ MockAddComponent :: [])
        ([⟨10⟩, ⟨20⟩, ⟨30⟩] : List CommunityRef) =
      runComponentsHook (fun c => c.add.map (fun h => h systemIdentity 1)) []
        ((fun cs => cs.dropLast)
          (runComponentsHook (fun c => c.add.map (fun h => h systemIdentity 1))
            [MockAddComponent] ([⟨10⟩, ⟨20⟩, ⟨30⟩] : List CommunityRef)))) :=
  ⟨(runComponentsHook_dispatch (fun c => c.add.map (fun h => h systemIdentity 1))
      [MockAddComponent] [MockAddComponent] MockRemoveComponent
      [⟨10⟩, ⟨20⟩, ⟨30⟩]).2.1 rfl,
   (runComponentsHook_dispatch (fun c => c.add.map (fun h => h systemIdentity 1))
      [MockAddComponent] [] MockAddComponent
      [⟨10⟩, ⟨20⟩, ⟨30⟩]).2.2 _ rfl⟩

/-- Claim C10: a `bulk_add` (with the tests' `MockBulkAddComponent`, which
drops the last record id and forces the set-default payload value to
`False`) called with `set_default=False` on fresh records with no default
community still makes the added community the default of every record it
processes, while the record dropped from the payload by the component gets
neither an association nor a default and produces no error entry. -/
theorem bulk_add_component_default_on_first (i : Identity) (cid : CommunityId)
    (ids : List RecordId) (lastId : RecordId) (s : Store)
    (hperm : canPerform i = true)
    (hnd : (ids ++ [lastId]).Nodup)
    (hres : ∀ r ∈ ids, (s.resolve r).isSome)
    (hnew : ∀ r ∈ ids, isAssociated s cid r = false)
    (hnodef : ∀ r ∈ ids, (s.resolve r).map RecordState.default = some none) :
    ∃ s2, bulk_add [MockBulkAddComponent] i cid (ids ++ [lastId]) false s =
        .ok ([], s2) ∧
      (∀ r ∈ ids, ∃ rec2, s2.resolve r = some rec2 ∧
         rec2.communities.contains cid = true ∧ rec2.default = some cid) ∧
      s2.resolve lastId = s.resolve lastId := by
  rw [List.nodup_append] at hnd
  obtain ⟨hndIds, _, hdisj⟩ := hnd
  have hlast : lastId ∉ ids := fun h => hdisj h (by simp)
  obtain ⟨s2, errsNew, heq, hlen, hunt, hunch, hupd⟩ :=
    bulkAddLoop_spec cid false ids s [] hres hndIds
  have h0 : errsNew.length = 0 := by
    rw [hlen]
    exact List.countP_eq_zero.mpr (fun r hr => by simp [hnew r hr])
  have hnil : errsNew = [] := List.length_eq_zero.mp h0
  subst hnil
  have hpayload : runBulkAddComponents [MockBulkAddComponent] i cid
      (ids ++ [lastId], false) = (ids, false) := by
    unfold runBulkAddComponents runComponentsHook MockBulkAddComponent
    simp [List.dropLast_concat]
  refine ⟨s2, ?_, ?_, hunt lastId hlast⟩
  · unfold bulk_add
    rw [hperm]
    simp only [if_true, hpayload]
    rw [heq]
    rfl
  · intro r hr
    obtain ⟨rec0, hrec0⟩ := Option.isSome_iff_exists.mp (hres r hr)
    have hdef : rec0.default = none := by
      have := hnodef r hr
      rw [hrec0] at this
      exact Option.some.inj this
    refine ⟨{ communities := rec0.communities ++ [cid], default := some cid }, ?_, by simp, rfl⟩
    have := hupd r hr rec0 hrec0 (hnew r hr)
    rw [this, hdef]
    rfl

/-- Witness for C10: records 1 and 2 of `freshStore` are processed and get
community 10 as default; record 3 is dropped by the component and is left
untouched. -/
theorem bulk_add_component_default_on_first_witness :
    ∃ s2, bulk_add [MockBulkAddComponent] systemIdentity 10 ([1, 2] ++ [3]) false
        freshStore = .ok ([], s2) ∧
      (∀ r ∈ [1, 2], ∃ rec2, s2.resolve r = some rec2 ∧
         rec2.communities.contains 10 = true ∧ rec2.default = some 10) ∧
      s2.resolve 3 = freshStore.resolve 3 :=
  bulk_add_component_default_on_first systemIdentity 10 [1, 2] 3 freshStore
    rfl (by decide) (by decide) (by decide) (by decide)

end RecordCommunities
